import Mathlib

/-!
Verification of the plaidml core C++ binding layer (plaidml/core/core.h).

The file is a shallow embedding of the header's components:
* the ffi error bridge (`ffi::str`, `ffi::call`, `ffi::call_void`),
* the shared-ownership wrappers (`details::Deleter`, `make_plaidml_shape`,
  `make_plaidml_buffer`, `make_plaidml_view`) via an explicit
  reference-counting state machine,
* `TensorShape` construction (row-major stride computation, rank check),
* `Buffer` allocation and the `copy_into` / `copy_from` operations,
* `View` and the liveness relation between a view and its parent buffer.

Machine arithmetic (`size_t`, `int64_t`) is modelled with `Nat` / `Int`
and explicit reduction modulo `2 ^ 64` where the source wraps.
Foreign-runtime behaviour that is not part of the header is modelled
from the spec and marked as such in doc comments.
-/

namespace Plaidml

/-- Element type tags, mirroring `enum class DType` (core.h:80-95). -/
inductive DType
  | INVALID
  | BOOLEAN
  | INT8
  | UINT8
  | INT16
  | UINT16
  | INT32
  | UINT32
  | INT64
  | UINT64
  | BFLOAT16
  | FLOAT16
  | FLOAT32
  | FLOAT64
deriving DecidableEq

/-- Name of each `DType` tag, used by the modelled textual representation. -/
def dtypeName : DType → String
  | .INVALID => "INVALID"
  | .BOOLEAN => "BOOLEAN"
  | .INT8 => "INT8"
  | .UINT8 => "UINT8"
  | .INT16 => "INT16"
  | .UINT16 => "UINT16"
  | .INT32 => "INT32"
  | .UINT32 => "UINT32"
  | .INT64 => "INT64"
  | .UINT64 => "UINT64"
  | .BFLOAT16 => "BFLOAT16"
  | .FLOAT16 => "FLOAT16"
  | .FLOAT32 => "FLOAT32"
  | .FLOAT64 => "FLOAT64"

/-- A foreign string handle (`plaidml_string*`): an identity (the pointer)
and the character data reachable through `plaidml_string_ptr`. -/
structure PlaidmlString where
  id : Nat
  contents : String
deriving DecidableEq

/-- `ffi::str` (core.h:18-22): copies the foreign string's characters into a
host-owned string and frees the foreign handle.  The second component is the
log of `plaidml_string_free` calls this performs (one entry, the handle's
pointer). -/
def ffiStr (p : PlaidmlString) : String × List Nat :=
  (p.contents, [p.id])

/-- The outcome a foreign value-returning operation writes: the error record
(`plaidml_error`: a code and, when the code is nonzero, a message handle)
plus the raw return value. -/
structure ForeignOutcome (T : Type) where
  code : Nat
  msg : PlaidmlString
  ret : T

/-- The error record written by a foreign void operation. -/
structure VoidOutcome where
  code : Nat
  msg : PlaidmlString
deriving DecidableEq

/-- `ffi::call` (core.h:24-32): if the error code is nonzero, translate the
message with `ffi::str` (which frees the handle) and raise; otherwise return
the operation's result unchanged.  The second component is the log of
`plaidml_string_free` calls. -/
def ffiCall {T : Type} (out : ForeignOutcome T) : Except String T × List Nat :=
  if out.code ≠ 0 then
    (Except.error (ffiStr out.msg).1, (ffiStr out.msg).2)
  else
    (Except.ok out.ret, [])

/-- `ffi::call_void` (core.h:34-41): same error translation for
side-effecting operations. -/
def ffiCallVoid (out : VoidOutcome) : Except String Unit × List Nat :=
  if out.code ≠ 0 then
    (Except.error (ffiStr out.msg).1, (ffiStr out.msg).2)
  else
    (Except.ok (), [])

/-- The three kinds of wrapped foreign handles; each kind is bound to its
specific release function (`plaidml_shape_free`, `plaidml_buffer_free`,
`plaidml_view_free`) by the `make_plaidml_*` wrappers (core.h:53-63). -/
inductive HKind
  | shape
  | buffer
  | view
deriving DecidableEq

/-- Calls crossing the foreign boundary that the embedded operations emit.
A `none` pointer argument is a C++ null pointer. -/
inductive FCall
  | shapeAlloc (dtype : DType) (ndims : Nat) (sizes strides : List Int)
  | bufferAlloc (device : String) (nbytes : Nat)
  | bufferMmapCurrent (ptr : Option Nat)
  | bufferMmapDiscard (ptr : Option Nat)
  | viewData (ptr : Option Nat)
  | viewSize (ptr : Option Nat)
  | viewWriteback (ptr : Option Nat)
  | free (k : HKind) (ptr : Nat)
deriving DecidableEq

/-- Conversion of a C++ `int64_t` value to `size_t` (reduction mod `2^64`),
as in `stride *= sizes[i]` (core.h:114). -/
def uint64OfInt (z : Int) : Nat :=
  (z % (2 ^ 64 : Int)).toNat

/-- Conversion of a C++ `size_t` value (a natural below `2^64`) to
`int64_t`, as in `strides[i] = stride` (core.h:113). -/
def int64OfNat (n : Nat) : Int :=
  if n < 2 ^ 63 then (n : Int) else (n : Int) - 2 ^ 64

/-- The stride loop of `TensorShape(DType, sizes)` (core.h:110-115),
processed from the last extent to the first: returns the strides list
together with the final value of the `size_t` accumulator `stride`.
`strides[i]` receives the current accumulator, then the accumulator is
multiplied (in `size_t`, i.e. mod `2^64`) by `sizes[i]`. -/
def computeStridesAux : List Int → List Int × Nat
  | [] => ([], 1)
  | s :: rest =>
    let p := computeStridesAux rest
    (int64OfNat p.2 :: p.1, (p.2 * uint64OfInt s) % 2 ^ 64)

/-- The strides vector the extents-only `TensorShape` constructor builds
(core.h:110-115). -/
def computeStrides (sizes : List Int) : List Int :=
  (computeStridesAux sizes).1

/-- The arguments handed to the foreign `plaidml_shape_alloc` call: the
data the underlying descriptor is built from. -/
structure ShapeAllocArgs where
  dtype : DType
  ndims : Nat
  sizes : List Int
  strides : List Int
deriving DecidableEq

/-- `TensorShape(DType, sizes)` (core.h:108-118): computes row-major
strides and passes dtype, rank, extents and the computed strides to
`plaidml_shape_alloc`.  Returns the descriptor arguments and the emitted
foreign-call log. -/
def tensorShapeFromSizes (d : DType) (sizes : List Int) :
    ShapeAllocArgs × List FCall :=
  let a : ShapeAllocArgs := ⟨d, sizes.length, sizes, computeStrides sizes⟩
  (a, [FCall.shapeAlloc d sizes.length sizes (computeStrides sizes)])

/-- `TensorShape(DType, sizes, strides)` (core.h:120-128): raises the
rank-mismatch error before any foreign call when the lengths differ,
otherwise passes both lists to `plaidml_shape_alloc`. -/
def tensorShapeFromSizesStrides (d : DType) (sizes strides : List Int) :
    Except String ShapeAllocArgs × List FCall :=
  if sizes.length ≠ strides.length then
    (Except.error "Sizes and strides must have the same rank.", [])
  else
    (Except.ok ⟨d, sizes.length, sizes, strides⟩,
      [FCall.shapeAlloc d sizes.length sizes strides])

/-- Product of a list of extents, as an unbounded integer (used to state
the spec's row-major law). -/
def prodList (l : List Int) : Int :=
  l.foldr (fun a b => a * b) 1

/-- Row-major strides as the spec words them (§4.3 of the spec): each
dimension's stride is the product of the extents after it, the last being
the empty product 1.  Written from the spec for comparison with
`computeStrides`. -/
def specRowMajorStrides : List Int → List Int
  | [] => []
  | _ :: rest => prodList rest :: specRowMajorStrides rest

/-- Modelled from the spec: `plaidml_shape_repr` (shape-to-string) is not
part of the header; §3/§4.3 say the textual representation is produced
from the descriptor.  Rendered here as the element-type name followed by
the extents and strides lists. -/
def shapeRepr (a : ShapeAllocArgs) : String :=
  dtypeName a.dtype ++ ":" ++ toString a.sizes ++ ":" ++ toString a.strides

/-- `TensorShape::operator==` (core.h:136): equality of the textual
representations (`str() == rhs.str()`). -/
def shapeStrEq (a b : ShapeAllocArgs) : Bool :=
  shapeRepr a == shapeRepr b

/-- Byte width of each element type tag. -/
def dtypeSizeBytes : DType → Nat
  | .INVALID => 0
  | .BOOLEAN => 1
  | .INT8 => 1
  | .UINT8 => 1
  | .INT16 => 2
  | .UINT16 => 2
  | .INT32 => 4
  | .UINT32 => 4
  | .INT64 => 8
  | .UINT64 => 8
  | .BFLOAT16 => 2
  | .FLOAT16 => 2
  | .FLOAT32 => 4
  | .FLOAT64 => 8

/-- Modelled from the spec: `plaidml_shape_get_nbytes` (shape-get-byte-size)
is not part of the header; §3 says the total byte size is computed by the
runtime from type and extents. -/
def shapeNbytes (a : ShapeAllocArgs) : Nat :=
  dtypeSizeBytes a.dtype * (a.sizes.map Int.toNat).foldr (fun x y => x * y) 1

/-- A foreign buffer resource as the runtime reports it. -/
structure AllocatedBuffer where
  device : String
  sizeBytes : Nat
deriving DecidableEq

/-- Modelled from the spec: `plaidml_buffer_alloc` (buffer-allocate,
§6) creates a buffer resource of the requested byte size on the named
device. -/
def plaidml_buffer_alloc (device : String) (size : Nat) : AllocatedBuffer :=
  ⟨device, size⟩

/-- `Buffer::Buffer(device, shape)` (core.h:179-182): requests a foreign
resource of exactly `shape.nbytes()` bytes.  Returns the allocated
resource and the emitted foreign call. -/
def bufferCtorAlloc (device : String) (shape : ShapeAllocArgs) :
    AllocatedBuffer × FCall :=
  (plaidml_buffer_alloc device (shapeNbytes shape),
    FCall.bufferAlloc device (shapeNbytes shape))

/-!
Shared-ownership model.  `std::shared_ptr` with a `details::Deleter`
(core.h:47-63) is modelled as a state machine over handle identities
(pointer values): creating a wrapper sets the count to 1 and records
which release function (`HKind`) is bound; copying increments; dropping
decrements, and the drop that reaches zero invokes the release function,
recorded in the `releases` log.
-/

/-- State of the shared-ownership model: the reference count and bound
release-function kind of every handle identity, plus the ordered log of
release-function invocations `(kind, pointer)`. -/
structure RcState where
  counts : Nat → Nat
  kindOf : Nat → HKind
  releases : List (HKind × Nat)

/-- Initial state: no handle is owned, nothing has been released. -/
def initState : RcState :=
  ⟨fun _ => 0, fun _ => HKind.shape, []⟩

/-- Ownership events: wrapping a fresh raw pointer (the `make_plaidml_*`
functions), copying a live handle, dropping a handle. -/
inductive RcOp
  | newh (k : HKind) (id : Nat)
  | copy (id : Nat)
  | drop (id : Nat)
deriving DecidableEq

/-- Effect of one ownership event.  The drop that takes the count from 1
to 0 invokes the bound release function with the original pointer
(`details::Deleter::operator()`, core.h:50), appended to the log. -/
def runOp (s : RcState) : RcOp → RcState
  | .newh k id =>
    { s with
      counts := fun j => if j = id then 1 else s.counts j
      kindOf := fun j => if j = id then k else s.kindOf j }
  | .copy id =>
    { s with counts := fun j => if j = id then s.counts j + 1 else s.counts j }
  | .drop id =>
    if s.counts id = 1 then
      { s with
        counts := fun j => if j = id then 0 else s.counts j
        releases := s.releases ++ [(s.kindOf id, id)] }
    else
      { s with counts := fun j => if j = id then s.counts j - 1 else s.counts j }

/-- Run a sequence of ownership events. -/
def runOps (s : RcState) : List RcOp → RcState
  | [] => s
  | op :: rest => runOps (runOp s op) rest

/-- Whether one event is legal C++: a wrapper is built from a fresh
pointer (never one currently owned or already released), and only live
handles are copied or dropped. -/
def validOp (s : RcState) : RcOp → Bool
  | .newh _ id => s.counts id == 0 && decide (id ∉ s.releases.map Prod.snd)
  | .copy id => s.counts id != 0
  | .drop id => s.counts id != 0

/-- Whether a whole event sequence is legal from a given state. -/
def validTrace (s : RcState) : List RcOp → Bool
  | [] => true
  | op :: rest => validOp s op && validTrace (runOp s op) rest

/-- `details::make_plaidml_shape` (core.h:53-55): wrap a raw shape
pointer, binding `plaidml_shape_free`. -/
def make_plaidml_shape (ptr : Nat) (s : RcState) : RcState :=
  runOp s (RcOp.newh HKind.shape ptr)

/-- `details::make_plaidml_buffer` (core.h:57-59): wrap a raw buffer
pointer, binding `plaidml_buffer_free`. -/
def make_plaidml_buffer (ptr : Nat) (s : RcState) : RcState :=
  runOp s (RcOp.newh HKind.buffer ptr)

/-- `details::make_plaidml_view` (core.h:61-63): wrap a raw view pointer,
binding `plaidml_view_free`. -/
def make_plaidml_view (ptr : Nat) (s : RcState) : RcState :=
  runOp s (RcOp.newh HKind.view ptr)

/-- A `TensorShape` value in the ownership model: its shared shape
handle (core.h:140). -/
structure RcShape where
  ptr_ : Nat

/-- Constructing a `TensorShape` wraps the runtime's raw shape pointer
(core.h:104-130). -/
def rcMakeShape (raw : Nat) (s : RcState) : RcShape × RcState :=
  (⟨raw⟩, make_plaidml_shape raw s)

/-- A `Buffer` value in the ownership model: its shared buffer handle
`ptr_` and the shape handle its `shape_` member shares (core.h:210-212). -/
structure RcBuffer where
  ptr_ : Nat
  shape_ptr : Nat

/-- `Buffer::Buffer(device, shape)` (core.h:179-182) in the ownership
model: wraps the runtime's raw buffer pointer with `make_plaidml_buffer`
and copy-constructs the `shape_` member (one more owner of the shape
handle). -/
def rcBufferCtor (shape : RcShape) (rawBuf : Nat) (s : RcState) :
    RcBuffer × RcState :=
  (⟨rawBuf, shape.ptr_⟩,
    runOp (make_plaidml_buffer rawBuf s) (RcOp.copy shape.ptr_))

/-- A `View` value in the ownership model.  Its only member is the shared
view handle `ptr_` (core.h:168); it holds no reference to the parent
buffer's handle. -/
structure RcView where
  ptr_ : Nat

/-- `Buffer::mmap_current` / `mmap_discard` (core.h:191-197) in the
ownership model: the runtime returns a raw view pointer, wrapped with
`make_plaidml_view`; the constructed `View` stores only that view handle
(core.h:164-168) and performs no operation on the buffer handle. -/
def RcBuffer.mmap_current (b : RcBuffer) (rawView : Nat) (s : RcState) :
    RcView × RcState :=
  (⟨rawView⟩, make_plaidml_view rawView s)

/-- Destruction of a `Buffer` value: its members are dropped (the
`shape_` member's shape handle and the buffer handle `ptr_`). -/
def RcBuffer.dropValue (b : RcBuffer) (s : RcState) : RcState :=
  runOp (runOp s (RcOp.drop b.shape_ptr)) (RcOp.drop b.ptr_)

/-- Destruction of a `View` value: its view handle is dropped. -/
def RcView.dropValue (v : RcView) (s : RcState) : RcState :=
  runOp s (RcOp.drop v.ptr_)

/-- Concrete scenario for claim C1, part 1: a `TensorShape` is created
(shape pointer 0) and a `Buffer` is allocated from it (buffer pointer
1). -/
def c1Setup : RcBuffer × RcState :=
  let sh := rcMakeShape 0 initState
  rcBufferCtor sh.1 1 sh.2

/-- Scenario part 2: a view (view pointer 2) is mapped from the buffer. -/
def c1Mapped : RcView × RcState :=
  RcBuffer.mmap_current c1Setup.1 2 c1Setup.2

/-- The scenario's final state: the `Buffer` value is dropped while the
view from `c1Mapped` is still alive. -/
def c1Final : RcState :=
  RcBuffer.dropValue c1Setup.1 c1Mapped.2

/-!
Byte-level memory model for the copy round trip (claim C3).  The mapping
semantics (`plaidml_buffer_mmap_current` / `_discard`, `plaidml_view_data`,
`plaidml_view_size`, `plaidml_view_writeback`) are not part of the header
and are modelled from the spec (§4.5, §6): a view is a host-visible window
of exactly the buffer's byte size; a current-mode view initially holds the
buffer's bytes; a discard-mode view initially holds unspecified bytes;
writeback stores the view's bytes back as the buffer's contents.
-/

/-- A foreign device buffer's contents: a sequence of byte values. -/
structure DevBuffer where
  bytes : List Nat
deriving DecidableEq

/-- Modelled from the spec (§4.5): `plaidml_view_size` — the mapped byte
length always equals the owning buffer's byte size. -/
def DevBuffer.viewSize (b : DevBuffer) : Nat :=
  b.bytes.length

/-- `memcpy(dst, src, n)` on byte sequences: the first `n` bytes of `dst`
are replaced by the first `n` bytes of `src`; the rest of `dst` is
untouched. -/
def memcpyList (dst src : List Nat) (n : Nat) : List Nat :=
  src.take n ++ dst.drop n

/-- `Buffer::copy_from` (core.h:204-208): map a discard-mode view (its
initial content is the unspecified `g`), `memcpy` `view.size()` bytes from
the source into the view, then `writeback` (modelled from the spec: the
view's bytes become the buffer's contents). -/
def DevBuffer.copy_from (b : DevBuffer) (g src : List Nat) : DevBuffer :=
  ⟨memcpyList g src b.viewSize⟩

/-- `Buffer::copy_into` (core.h:199-202): map a current-mode view
(modelled from the spec: its content equals the buffer's bytes), then
`memcpy` `view.size()` bytes from the view into the destination. -/
def DevBuffer.copy_into (b : DevBuffer) (dst : List Nat) : List Nat :=
  memcpyList dst b.bytes b.viewSize

/-!
Call-log model of `Buffer` for claim C9: a buffer value is its
`shared_ptr` stored pointer (`none` = null); each operation emits the
foreign calls it makes, with the stored pointer passed verbatim, and its
result is obtained solely by `ffi::call` translation of the runtime's
reported outcome — there is no local null check anywhere.
-/

/-- A `Buffer` value as seen by its operations: the raw pointer its
`shared_ptr` member holds (`Buffer() = default` leaves it null,
core.h:178). The `shape_` member is not consulted by any of the
operations modelled here. -/
structure CBuffer where
  ptr_ : Option Nat := none

/-- A default-constructed `Buffer` (core.h:178): null handle. -/
def defaultCBuffer : CBuffer :=
  {}

/-- A `View` value in the call-log model: the raw pointer of its wrapped
view handle. -/
structure CView where
  ptr_ : Option Nat
deriving DecidableEq

/-- `Buffer::as_ptr` (core.h:187-189): returns the stored raw pointer,
null included. -/
def CBuffer.as_ptr (b : CBuffer) : Option Nat :=
  b.ptr_

/-- `Buffer::mmap_current` (core.h:191-193): passes the stored pointer
(possibly null) straight to `plaidml_buffer_mmap_current` through
`ffi::call`; on success wraps the returned raw view pointer. -/
def CBuffer.mmap_current (b : CBuffer) (out : ForeignOutcome Nat) :
    Except String CView × List FCall :=
  ((ffiCall out).1.map (fun p => ⟨some p⟩), [FCall.bufferMmapCurrent b.ptr_])

/-- `Buffer::mmap_discard` (core.h:195-197): same, through
`plaidml_buffer_mmap_discard`. -/
def CBuffer.mmap_discard (b : CBuffer) (out : ForeignOutcome Nat) :
    Except String CView × List FCall :=
  ((ffiCall out).1.map (fun p => ⟨some p⟩), [FCall.bufferMmapDiscard b.ptr_])

/-- The runtime outcomes consumed by one `copy_into` call: the mmap, the
`plaidml_view_data` call and the `plaidml_view_size` call. -/
structure CopyIntoOuts where
  mmap : ForeignOutcome Nat
  data : ForeignOutcome (List Nat)
  vsize : ForeignOutcome Nat

/-- `Buffer::copy_into` (core.h:199-202) in the call-log model: map a
current-mode view, then `memcpy(dst, view.data(), view.size())`; the
result is the bytes written to the destination.  Every failure is a
foreign-reported one, translated by `ffi::call`. -/
def CBuffer.copy_into (b : CBuffer) (rt : CopyIntoOuts) :
    Except String (List Nat) × List FCall :=
  match CBuffer.mmap_current b rt.mmap with
  | (Except.error e, log) => (Except.error e, log)
  | (Except.ok v, log) =>
    match (ffiCall rt.data).1 with
    | Except.error e => (Except.error e, log ++ [FCall.viewData v.ptr_])
    | Except.ok bytes =>
      match (ffiCall rt.vsize).1 with
      | Except.error e =>
        (Except.error e, log ++ [FCall.viewData v.ptr_, FCall.viewSize v.ptr_])
      | Except.ok n =>
        (Except.ok (bytes.take n),
          log ++ [FCall.viewData v.ptr_, FCall.viewSize v.ptr_])

/-- The runtime outcomes consumed by one `copy_from` call: the mmap, the
`plaidml_view_data` and `plaidml_view_size` calls, and the
`plaidml_view_writeback` call. -/
structure CopyFromOuts where
  mmap : ForeignOutcome Nat
  data : ForeignOutcome (List Nat)
  vsize : ForeignOutcome Nat
  wb : VoidOutcome

/-- `Buffer::copy_from` (core.h:204-208) in the call-log model: map a
discard-mode view, `memcpy(view.data(), src, view.size())`, then
`view.writeback()`.  Every failure is a foreign-reported one. -/
def CBuffer.copy_from (b : CBuffer) (src : List Nat) (rt : CopyFromOuts) :
    Except String Unit × List FCall :=
  match CBuffer.mmap_discard b rt.mmap with
  | (Except.error e, log) => (Except.error e, log)
  | (Except.ok v, log) =>
    match (ffiCall rt.data).1 with
    | Except.error e => (Except.error e, log ++ [FCall.viewData v.ptr_])
    | Except.ok _ =>
      match (ffiCall rt.vsize).1 with
      | Except.error e =>
        (Except.error e, log ++ [FCall.viewData v.ptr_, FCall.viewSize v.ptr_])
      | Except.ok _ =>
        match (ffiCallVoid rt.wb).1 with
        | Except.error e =>
          (Except.error e,
            log ++ [FCall.viewData v.ptr_, FCall.viewSize v.ptr_,
              FCall.viewWriteback v.ptr_])
        | Except.ok _ =>
          (Except.ok (),
            log ++ [FCall.viewData v.ptr_, FCall.viewSize v.ptr_,
              FCall.viewWriteback v.ptr_])

/-- `details::Deleter` (core.h:47-51): holds the release function for its
handle kind. -/
structure Deleter where
  fn : HKind

/-- `details::Deleter::operator()` (core.h:50): invokes the stored free
function on the pointer through `ffi::call_void`.  Returns the translated
result, the `plaidml_string_free` log, and the emitted foreign free
call. -/
def Deleter.run (d : Deleter) (ptr : Nat) (out : VoidOutcome) :
    (Except String Unit × List Nat) × FCall :=
  (ffiCallVoid out, FCall.free d.fn ptr)

/-! ## Theorems -/

/-- Claim C2: through the error bridge (`ffi::call` and `ffi::call_void`),
a zero error code returns the operation's result unchanged with no message
resource touched (empty `plaidml_string_free` log), and a nonzero code with
message text X raises a failure whose text equals X while releasing the
foreign string handle exactly once (a one-element free log holding that
handle). -/
theorem C2_error_bridge :
    (∀ (T : Type) (out : ForeignOutcome T),
      (out.code = 0 → ffiCall out = (Except.ok out.ret, [])) ∧
      (out.code ≠ 0 →
        ffiCall out = (Except.error out.msg.contents, [out.msg.id]))) ∧
    (∀ out : VoidOutcome,
      (out.code = 0 → ffiCallVoid out = (Except.ok (), [])) ∧
      (out.code ≠ 0 →
        ffiCallVoid out = (Except.error out.msg.contents, [out.msg.id]))) := by
  refine ⟨fun T out => ⟨fun h => ?_, fun h => ?_⟩,
    fun out => ⟨fun h => ?_, fun h => ?_⟩⟩
  · simp [ffiCall, h]
  · simp [ffiCall, ffiStr, h]
  · simp [ffiCallVoid, h]
  · simp [ffiCallVoid, ffiStr, h]

/-- Witness for C2: a successful call returns its value with no string
free; a failing call with message "X" on handle 7 raises "X" and frees
handle 7 once; same for a void call. -/
theorem C2_error_bridge_witness :
    ffiCall (⟨0, ⟨7, "unused"⟩, 42⟩ : ForeignOutcome Nat) =
      (Except.ok 42, []) ∧
    ffiCall (⟨3, ⟨7, "X"⟩, 0⟩ : ForeignOutcome Nat) =
      (Except.error "X", [7]) ∧
    ffiCallVoid ⟨5, ⟨9, "Y"⟩⟩ = (Except.error "Y", [9]) :=
  ⟨(C2_error_bridge.1 Nat ⟨0, ⟨7, "unused"⟩, 42⟩).1 rfl,
   (C2_error_bridge.1 Nat ⟨3, ⟨7, "X"⟩, 0⟩).2 (by decide),
   (C2_error_bridge.2 ⟨5, ⟨9, "Y"⟩⟩).2 (by decide)⟩

/-- Claim C10: a wrapped handle's release goes through the error bridge:
`details::Deleter::operator()` emits the foreign free call bound to its
kind, and when the free operation reports a nonzero code the release path
raises a failure carrying the translated message (with the message handle
freed once) instead of dropping the error; a zero code releases
silently. -/
theorem C10_deleter_bridge (d : Deleter) (ptr : Nat) (out : VoidOutcome) :
    (Deleter.run d ptr out).2 = FCall.free d.fn ptr ∧
    (out.code ≠ 0 →
      (Deleter.run d ptr out).1 =
        (Except.error out.msg.contents, [out.msg.id])) ∧
    (out.code = 0 → (Deleter.run d ptr out).1 = (Except.ok (), [])) := by
  refine ⟨rfl, fun h => ?_, fun h => ?_⟩
  · simp [Deleter.run, ffiCallVoid, ffiStr, h]
  · simp [Deleter.run, ffiCallVoid, h]

/-- Witness for C10: freeing a buffer pointer whose free call fails with
"gone" raises "gone" from the release path. -/
theorem C10_deleter_bridge_witness :
    (Deleter.run ⟨HKind.buffer⟩ 4 ⟨2, ⟨11, "gone"⟩⟩).2 =
      FCall.free HKind.buffer 4 ∧
    (Deleter.run ⟨HKind.buffer⟩ 4 ⟨2, ⟨11, "gone"⟩⟩).1 =
      (Except.error "gone", [11]) :=
  ⟨(C10_deleter_bridge ⟨HKind.buffer⟩ 4 ⟨2, ⟨11, "gone"⟩⟩).1,
   (C10_deleter_bridge ⟨HKind.buffer⟩ 4 ⟨2, ⟨11, "gone"⟩⟩).2.1 (by decide)⟩

/-- Claim C5: constructing a `TensorShape` from extents and strides lists
of differing lengths raises the rank-mismatch error and emits no foreign
call at all (in particular `plaidml_shape_alloc` is never invoked). -/
theorem C5_rank_mismatch (d : DType) (sizes strides : List Int)
    (h : sizes.length ≠ strides.length) :
    tensorShapeFromSizesStrides d sizes strides =
      (Except.error "Sizes and strides must have the same rank.", []) := by
  simp [tensorShapeFromSizesStrides, h]

/-- Witness for C5: extents of rank 2 with strides of rank 1. -/
theorem C5_rank_mismatch_witness :
    tensorShapeFromSizesStrides DType.FLOAT32 [2, 3] [1] =
      (Except.error "Sizes and strides must have the same rank.", []) :=
  C5_rank_mismatch DType.FLOAT32 [2, 3] [1] (by decide)

/-- Claim C8: the allocating `Buffer` constructor requests a foreign
resource of exactly the descriptor's total byte size, and the allocated
buffer's byte size equals it. -/
theorem C8_alloc_size (device : String) (shape : ShapeAllocArgs) :
    (bufferCtorAlloc device shape).2 =
      FCall.bufferAlloc device (shapeNbytes shape) ∧
    (bufferCtorAlloc device shape).1.sizeBytes = shapeNbytes shape :=
  ⟨rfl, rfl⟩

/-- `dtypeName` is injective: the fourteen tag names are pairwise
distinct. -/
theorem dtypeName_injective :
    ∀ d1 d2 : DType, dtypeName d1 = dtypeName d2 → d1 = d2 := by
  intro d1 d2
  cases d1 <;> cases d2 <;> intro h <;> first | rfl | exact absurd h (by decide)

/-- Claim C6: `TensorShape` equality is textual-representation equality —
two descriptors compare equal exactly when their `str()` texts are equal;
descriptors built from identical type, extents and strides compare equal,
and descriptors differing only in element type compare unequal. -/
theorem C6_textual_equality :
    (∀ a b : ShapeAllocArgs, shapeStrEq a b = true ↔ shapeRepr a = shapeRepr b) ∧
    (∀ (d : DType) (n : Nat) (s t : List Int),
      shapeStrEq ⟨d, n, s, t⟩ ⟨d, n, s, t⟩ = true) ∧
    (∀ (d1 d2 : DType) (n : Nat) (s t : List Int), d1 ≠ d2 →
      shapeStrEq ⟨d1, n, s, t⟩ ⟨d2, n, s, t⟩ = false) := by
  refine ⟨fun a b => ?_, fun d n s t => ?_, fun d1 d2 n s t hne => ?_⟩
  · simp [shapeStrEq]
  · simp [shapeStrEq]
  · simp only [shapeStrEq, beq_eq_false_iff_ne, ne_eq]
    intro h
    apply hne
    apply dtypeName_injective
    apply String.ext
    have hd := congrArg String.data h
    simp only [shapeRepr, String.data_append, List.append_assoc] at hd
    exact List.append_cancel_right hd

/-- Witness for C6: two FLOAT32 descriptors with extents [2,3] and
strides [3,1] compare equal; the same descriptor with INT32 in place of
FLOAT32 compares unequal. -/
theorem C6_textual_equality_witness :
    shapeStrEq ⟨DType.FLOAT32, 2, [2, 3], [3, 1]⟩
      ⟨DType.FLOAT32, 2, [2, 3], [3, 1]⟩ = true ∧
    shapeStrEq ⟨DType.FLOAT32, 2, [2, 3], [3, 1]⟩
      ⟨DType.INT32, 2, [2, 3], [3, 1]⟩ = false :=
  ⟨C6_textual_equality.2.1 DType.FLOAT32 2 [2, 3] [3, 1],
   C6_textual_equality.2.2 DType.FLOAT32 DType.INT32 2 [2, 3] [3, 1]
     (by decide)⟩

/-- Claim C9: a default-constructed `Buffer` holds a null handle, and its
operations perform no local null check: `as_ptr` returns null, the mapping
operations pass the null pointer verbatim to the foreign runtime, and the
copy operations begin with such a mapping call; every failure is exactly
the foreign-reported one translated by the bridge, and when the runtime
reports success the operation succeeds — no error is raised locally. -/
theorem C9_null_passthrough :
    defaultCBuffer.ptr_ = none ∧
    defaultCBuffer.as_ptr = none ∧
    (∀ out : ForeignOutcome Nat,
      (defaultCBuffer.mmap_current out).2 = [FCall.bufferMmapCurrent none] ∧
      (out.code = 0 →
        (defaultCBuffer.mmap_current out).1 = Except.ok ⟨some out.ret⟩) ∧
      (out.code ≠ 0 →
        (defaultCBuffer.mmap_current out).1 =
          Except.error out.msg.contents)) ∧
    (∀ out : ForeignOutcome Nat,
      (defaultCBuffer.mmap_discard out).2 = [FCall.bufferMmapDiscard none] ∧
      (out.code = 0 →
        (defaultCBuffer.mmap_discard out).1 = Except.ok ⟨some out.ret⟩) ∧
      (out.code ≠ 0 →
        (defaultCBuffer.mmap_discard out).1 =
          Except.error out.msg.contents)) ∧
    (∀ rt : CopyIntoOuts,
      (defaultCBuffer.copy_into rt).2.head? =
        some (FCall.bufferMmapCurrent none) ∧
      (rt.mmap.code ≠ 0 →
        (defaultCBuffer.copy_into rt).1 =
          Except.error rt.mmap.msg.contents) ∧
      (rt.mmap.code = 0 → rt.data.code = 0 → rt.vsize.code = 0 →
        (defaultCBuffer.copy_into rt).1 =
          Except.ok (rt.data.ret.take rt.vsize.ret))) ∧
    (∀ (src : List Nat) (rt : CopyFromOuts),
      (defaultCBuffer.copy_from src rt).2.head? =
        some (FCall.bufferMmapDiscard none) ∧
      (rt.mmap.code ≠ 0 →
        (defaultCBuffer.copy_from src rt).1 =
          Except.error rt.mmap.msg.contents) ∧
      (rt.mmap.code = 0 → rt.data.code = 0 → rt.vsize.code = 0 →
        rt.wb.code = 0 →
        (defaultCBuffer.copy_from src rt).1 = Except.ok ())) := by
  refine ⟨rfl, rfl, fun out => ⟨rfl, fun h => ?_, fun h => ?_⟩,
    fun out => ⟨rfl, fun h => ?_, fun h => ?_⟩,
    fun rt => ⟨?_, fun h => ?_, fun h1 h2 h3 => ?_⟩,
    fun src rt => ⟨?_, fun h => ?_, fun h1 h2 h3 h4 => ?_⟩⟩
  · simp [CBuffer.mmap_current, ffiCall, Except.map, h]
  · simp [CBuffer.mmap_current, ffiCall, ffiStr, Except.map, h]
  · simp [CBuffer.mmap_discard, ffiCall, Except.map, h]
  · simp [CBuffer.mmap_discard, ffiCall, ffiStr, Except.map, h]
  · by_cases h1 : rt.mmap.code = 0
    · by_cases h2 : rt.data.code = 0
      · by_cases h3 : rt.vsize.code = 0 <;>
          simp [CBuffer.copy_into, CBuffer.mmap_current, ffiCall, ffiStr,
            Except.map, defaultCBuffer, h1, h2, h3]
      · simp [CBuffer.copy_into, CBuffer.mmap_current, ffiCall, ffiStr,
          Except.map, defaultCBuffer, h1, h2]
    · simp [CBuffer.copy_into, CBuffer.mmap_current, ffiCall, ffiStr,
        Except.map, defaultCBuffer, h1]
  · simp [CBuffer.copy_into, CBuffer.mmap_current, ffiCall, ffiStr,
      Except.map, defaultCBuffer, h]
  · simp [CBuffer.copy_into, CBuffer.mmap_current, ffiCall, ffiStr,
      Except.map, defaultCBuffer, h1, h2, h3]
  · by_cases h1 : rt.mmap.code = 0
    · by_cases h2 : rt.data.code = 0
      · by_cases h3 : rt.vsize.code = 0
        · by_cases h4 : rt.wb.code = 0 <;>
            simp [CBuffer.copy_from, CBuffer.mmap_discard, ffiCall,
              ffiCallVoid, ffiStr, Except.map, defaultCBuffer, h1, h2, h3, h4]
        · simp [CBuffer.copy_from, CBuffer.mmap_discard, ffiCall, ffiStr,
            Except.map, defaultCBuffer, h1, h2, h3]
      · simp [CBuffer.copy_from, CBuffer.mmap_discard, ffiCall, ffiStr,
          Except.map, defaultCBuffer, h1, h2]
    · simp [CBuffer.copy_from, CBuffer.mmap_discard, ffiCall, ffiStr,
        Except.map, defaultCBuffer, h1]
  · simp [CBuffer.copy_from, CBuffer.mmap_discard, ffiCall, ffiStr,
      Except.map, defaultCBuffer, h]
  · simp [CBuffer.copy_from, CBuffer.mmap_discard, ffiCall, ffiCallVoid,
      ffiStr, Except.map, defaultCBuffer, h1, h2, h3, h4]

/-- Witness for C9: with a runtime that reports success everywhere, the
null buffer's `copy_into` emits the current-mode mapping call with a null
pointer first and succeeds; with a runtime that fails the mapping with
"bad buffer", the only failure is that translated message. -/
theorem C9_null_passthrough_witness :
    (defaultCBuffer.copy_into
        ⟨⟨0, ⟨1, ""⟩, 3⟩, ⟨0, ⟨1, ""⟩, [5, 6]⟩, ⟨0, ⟨1, ""⟩, 2⟩⟩).2.head? =
      some (FCall.bufferMmapCurrent none) ∧
    (defaultCBuffer.copy_into
        ⟨⟨0, ⟨1, ""⟩, 3⟩, ⟨0, ⟨1, ""⟩, [5, 6]⟩, ⟨0, ⟨1, ""⟩, 2⟩⟩).1 =
      Except.ok [5, 6] ∧
    (defaultCBuffer.mmap_current ⟨4, ⟨8, "bad buffer"⟩, 0⟩).1 =
      Except.error "bad buffer" :=
  ⟨(C9_null_passthrough.2.2.2.2.1
      ⟨⟨0, ⟨1, ""⟩, 3⟩, ⟨0, ⟨1, ""⟩, [5, 6]⟩, ⟨0, ⟨1, ""⟩, 2⟩⟩).1,
   (C9_null_passthrough.2.2.2.2.1
      ⟨⟨0, ⟨1, ""⟩, 3⟩, ⟨0, ⟨1, ""⟩, [5, 6]⟩, ⟨0, ⟨1, ""⟩, 2⟩⟩).2.2
     rfl rfl rfl,
   (C9_null_passthrough.2.2.1 ⟨4, ⟨8, "bad buffer"⟩, 0⟩).2.2 (by decide)⟩

/-- Claim C3: for a buffer and a payload of exactly the buffer's byte
size, `copy_from` (discard-mode map, bulk copy, writeback) followed by
`copy_into` into a destination of that size reproduces the payload
exactly. -/
theorem C3_roundtrip (b : DevBuffer) (g src dst : List Nat)
    (hg : g.length = b.viewSize) (hsrc : src.length = b.viewSize)
    (hdst : dst.length = b.viewSize) :
    (b.copy_from g src).copy_into dst = src := by
  unfold DevBuffer.copy_into DevBuffer.copy_from memcpyList DevBuffer.viewSize
  simp only [DevBuffer.viewSize] at hg hsrc hdst
  rw [← hsrc] at hg hdst ⊢
  simp [List.take_append_eq_append_take, List.take_of_length_le hg.ge,
    List.drop_eq_nil_of_le hg.le, List.take_of_length_le (le_refl src.length),
    List.drop_eq_nil_of_le hdst.le]

/-- Witness for C3: a two-byte buffer round-trips the payload [9, 8]. -/
theorem C3_roundtrip_witness :
    (DevBuffer.copy_from ⟨[0, 0]⟩ [7, 7] [9, 8]).copy_into [1, 1] = [9, 8] :=
  C3_roundtrip ⟨[0, 0]⟩ [7, 7] [9, 8] [1, 1] (by decide) (by decide)
    (by decide)

/-- A list of extents all at least 1 has product at least 1. -/
theorem one_le_prodList (l : List Int) (h : ∀ x ∈ l, 1 ≤ x) :
    1 ≤ prodList l := by
  induction l with
  | nil => simp [prodList]
  | cons a t ih =>
    have ha : 1 ≤ a := h a (List.mem_cons_self a t)
    have ht : 1 ≤ prodList t :=
      ih (fun x hx => h x (List.mem_cons_of_mem a hx))
    have : prodList (a :: t) = a * prodList t := rfl
    nlinarith

/-- When every extent is at least 1 and the total product stays below
`2^63`, the stride loop never wraps: it computes exactly the spec's
row-major suffix products, and the accumulator ends at the total
product. -/
theorem computeStridesAux_eq (l : List Int) (h1 : ∀ x ∈ l, 1 ≤ x)
    (h2 : prodList l < 2 ^ 63) :
    computeStridesAux l = (specRowMajorStrides l, (prodList l).toNat) := by
  induction l with
  | nil => simp [computeStridesAux, specRowMajorStrides, prodList]
  | cons a t ih =>
    have ha : 1 ≤ a := h1 a (List.mem_cons_self a t)
    have ht1 : ∀ x ∈ t, 1 ≤ x := fun x hx => h1 x (List.mem_cons_of_mem a hx)
    have hpt : 1 ≤ prodList t := one_le_prodList t ht1
    have hprod : prodList (a :: t) = a * prodList t := rfl
    have hat : a * prodList t < 2 ^ 63 := by rw [← hprod]; exact h2
    have ht2 : prodList t < 2 ^ 63 := by nlinarith
    have ha2 : a < 2 ^ 63 := by nlinarith
    have ihe := ih ht1 ht2
    have htn : (prodList t).toNat < 2 ^ 63 := by omega
    have hhead : int64OfNat (prodList t).toNat = prodList t := by
      unfold int64OfNat
      rw [if_pos htn]
      omega
    have hu : uint64OfInt a = a.toNat := by
      unfold uint64OfInt
      rw [Int.emod_eq_of_lt (by omega) (by nlinarith)]
    have hcast : (((prodList t).toNat * a.toNat : Nat) : Int) = prodList t * a := by
      push_cast
      rw [Int.toNat_of_nonneg (by omega), Int.toNat_of_nonneg (by omega)]
    have hmul : (prodList t).toNat * a.toNat = (prodList t * a).toNat := by
      omega
    have hsmall : (prodList t * a).toNat < 2 ^ 64 := by
      have : prodList t * a < 2 ^ 63 := by nlinarith
      omega
    show (int64OfNat (computeStridesAux t).2 :: (computeStridesAux t).1,
        ((computeStridesAux t).2 * uint64OfInt a) % 2 ^ 64) = _
    rw [ihe]
    simp only [hhead, hu, specRowMajorStrides]
    rw [hmul, Nat.mod_eq_of_lt hsmall]
    rw [hprod]
    rw [mul_comm a (prodList t)]

/-- The spec's row-major strides list has the same rank as the extents
list. -/
theorem specRowMajorStrides_length (l : List Int) :
    (specRowMajorStrides l).length = l.length := by
  induction l with
  | nil => rfl
  | cons a t ih => simp [specRowMajorStrides, ih]

/-- Each spec stride is the next stride times the next extent. -/
theorem specRowMajorStrides_getD (l : List Int) (i : Nat)
    (hi : i + 1 < l.length) :
    (specRowMajorStrides l).getD i 0 =
      (specRowMajorStrides l).getD (i + 1) 0 * l.getD (i + 1) 0 := by
  induction l generalizing i with
  | nil => simp at hi
  | cons a t ih =>
    cases i with
    | zero =>
      cases t with
      | nil => simp at hi
      | cons b t2 =>
        show (prodList (b :: t2) :: specRowMajorStrides (b :: t2)).getD 0 0 = _
        have hb : prodList (b :: t2) = b * prodList t2 := rfl
        simp [specRowMajorStrides, hb]
        ring
    | succ j =>
      have hj : j + 1 < t.length := by simpa using hi
      show (prodList t :: specRowMajorStrides t).getD (j + 1) 0 = _
      simp only [List.getD_cons_succ]
      exact ih j hj

/-- The last spec stride of a nonempty extents list is 1. -/
theorem specRowMajorStrides_getLast (l : List Int) (h : l ≠ []) :
    (specRowMajorStrides l).getLast? = some 1 := by
  induction l with
  | nil => cases h rfl
  | cons a t ih =>
    cases t with
    | nil => simp [specRowMajorStrides, prodList]
    | cons b t2 =>
      have ihe := ih (by simp)
      show (prodList (b :: t2) :: prodList t2 ::
        specRowMajorStrides t2).getLast? = some 1
      rw [List.getLast?_cons_cons]
      exact ihe

/-- Counterexample for claim C4 as stated: the stride loop runs in
`size_t` arithmetic, so for the extents `[1, 2^33, 2^33]` the running
product wraps modulo `2^64` and the constructor passes `strides[0] = 0`
to `plaidml_shape_alloc`, while the claimed law demands
`strides[1] * extents[1] = 2^66`. -/
theorem C4_row_major_counterexample :
    (tensorShapeFromSizes DType.FLOAT32
        [1, 8589934592, 8589934592]).1.strides = [0, 8589934592, 1] ∧
    ¬ ((tensorShapeFromSizes DType.FLOAT32
          [1, 8589934592, 8589934592]).1.strides.getD 0 0 =
        (tensorShapeFromSizes DType.FLOAT32
            [1, 8589934592, 8589934592]).1.strides.getD 1 0 *
          ([1, 8589934592, 8589934592] : List Int).getD 1 0) := by
  constructor
  · decide
  · decide

/-- Claim C4 (amended): for extents that are all at least 1 and whose
total product fits below `2^63` (no `size_t` overflow), the extents-only
constructor computes row-major strides — the last stride is 1 and
`strides[i] = strides[i+1] * extents[i+1]` — and passes exactly these
strides to the foreign `plaidml_shape_alloc` call.  (For general extents
the law holds only modulo the `2^64` truncation exhibited by the
counterexample.) -/
theorem C4_row_major_amended (d : DType) (sizes : List Int)
    (h1 : ∀ x ∈ sizes, 1 ≤ x) (h2 : prodList sizes < 2 ^ 63) :
    (sizes ≠ [] →
      (tensorShapeFromSizes d sizes).1.strides.getLast? = some 1) ∧
    (∀ i, i + 1 < sizes.length →
      (tensorShapeFromSizes d sizes).1.strides.getD i 0 =
        (tensorShapeFromSizes d sizes).1.strides.getD (i + 1) 0 *
          sizes.getD (i + 1) 0) ∧
    (tensorShapeFromSizes d sizes).2 =
      [FCall.shapeAlloc d sizes.length sizes (computeStrides sizes)] := by
  have hcs : computeStrides sizes = specRowMajorStrides sizes := by
    unfold computeStrides
    rw [computeStridesAux_eq sizes h1 h2]
  refine ⟨fun hne => ?_, fun i hi => ?_, rfl⟩
  · show (computeStrides sizes).getLast? = some 1
    rw [hcs]
    exact specRowMajorStrides_getLast sizes hne
  · show (computeStrides sizes).getD i 0 =
      (computeStrides sizes).getD (i + 1) 0 * sizes.getD (i + 1) 0
    rw [hcs]
    exact specRowMajorStrides_getD sizes i hi

/-- Witness for the amended C4: extents [2, 3, 4] produce strides
[12, 4, 1], satisfying the row-major law. -/
theorem C4_row_major_amended_witness :
    (tensorShapeFromSizes DType.INT8 [2, 3, 4]).1.strides.getLast? =
      some 1 ∧
    (tensorShapeFromSizes DType.INT8 [2, 3, 4]).1.strides.getD 0 0 =
      (tensorShapeFromSizes DType.INT8 [2, 3, 4]).1.strides.getD 1 0 *
        ([2, 3, 4] : List Int).getD 1 0 :=
  ⟨(C4_row_major_amended DType.INT8 [2, 3, 4] (by decide) (by decide)).1
      (by decide),
   (C4_row_major_amended DType.INT8 [2, 3, 4] (by decide) (by decide)).2.1 0
      (by decide)⟩

/-- One legal ownership event preserves the invariant: the release log
has no duplicate pointer, and every released pointer has no live
owner. -/
theorem runOp_preserves (s : RcState) (op : RcOp)
    (hv : validOp s op = true)
    (hn : (s.releases.map Prod.snd).Nodup)
    (hd : ∀ p ∈ s.releases, s.counts p.2 = 0) :
    ((runOp s op).releases.map Prod.snd).Nodup ∧
      ∀ p ∈ (runOp s op).releases, (runOp s op).counts p.2 = 0 := by
  cases op with
  | newh k id =>
    simp only [validOp, Bool.and_eq_true, beq_iff_eq, decide_eq_true_eq] at hv
    refine ⟨by simpa [runOp] using hn, ?_⟩
    intro p hp
    have hpid : p.2 ≠ id := by
      intro h
      exact hv.2 (h ▸ List.mem_map_of_mem Prod.snd hp)
    simpa [runOp, hpid] using hd p hp
  | copy id =>
    simp only [validOp, bne_iff_ne, ne_eq] at hv
    refine ⟨by simpa [runOp] using hn, ?_⟩
    intro p hp
    have hz := hd p hp
    have hpid : p.2 ≠ id := by
      intro h
      exact hv (h ▸ hz)
    simpa [runOp, hpid] using hz
  | drop id =>
    simp only [validOp, bne_iff_ne, ne_eq] at hv
    have hid : id ∉ s.releases.map Prod.snd := by
      intro hmem
      rcases List.mem_map.1 hmem with ⟨p, hp, hp2⟩
      exact hv (hp2 ▸ hd p hp)
    by_cases h1 : s.counts id = 1
    · constructor
      · simp [runOp, h1, List.nodup_append, hn, hid]
      · intro p hp
        simp only [runOp, h1, if_true] at hp ⊢
        rcases List.mem_append.1 hp with hold | hnew
        · have hz := hd p hold
          by_cases hpid : p.2 = id
          · simp [hpid]
          · simp [hpid, hz]
        · have : p = (s.kindOf id, id) := by simpa using hnew
          simp [this]
    · constructor
      · simpa [runOp, h1] using hn
      · intro p hp
        simp only [runOp, h1, if_false] at hp ⊢
        have hz := hd p hp
        have hpid : p.2 ≠ id := by
          intro h
          exact hv (h ▸ hz)
        simp [hpid, hz]

/-- A legal event sequence preserves the invariant. -/
theorem runOps_preserves (ops : List RcOp) (s : RcState)
    (hv : validTrace s ops = true)
    (hn : (s.releases.map Prod.snd).Nodup)
    (hd : ∀ p ∈ s.releases, s.counts p.2 = 0) :
    ((runOps s ops).releases.map Prod.snd).Nodup ∧
      ∀ p ∈ (runOps s ops).releases, (runOps s ops).counts p.2 = 0 := by
  induction ops generalizing s with
  | nil => exact ⟨hn, hd⟩
  | cons op rest ih =>
    simp only [validTrace, Bool.and_eq_true] at hv
    have h1 := runOp_preserves s op hv.1 hn hd
    exact ih (runOp s op) hv.2 h1.1 h1.2

/-- Claim C7: wrapping a raw pointer with `make_plaidml_shape` /
`make_plaidml_buffer` / `make_plaidml_view` gives it one owner and binds
its kind-specific release function; copying increments the count;
dropping a copy with other owners left decrements it and releases
nothing; the drop that takes the count from 1 to 0 invokes the bound
release function with the original pointer; and over any legal event
sequence from the initial state, no pointer is ever released twice and
no released pointer has a live owner. -/
theorem C7_refcount :
    (∀ (ptr : Nat) (s : RcState),
      (make_plaidml_shape ptr s).counts ptr = 1 ∧
      (make_plaidml_shape ptr s).kindOf ptr = HKind.shape ∧
      (make_plaidml_buffer ptr s).counts ptr = 1 ∧
      (make_plaidml_buffer ptr s).kindOf ptr = HKind.buffer ∧
      (make_plaidml_view ptr s).counts ptr = 1 ∧
      (make_plaidml_view ptr s).kindOf ptr = HKind.view) ∧
    (∀ (s : RcState) (id : Nat),
      (runOp s (RcOp.copy id)).counts id = s.counts id + 1) ∧
    (∀ (s : RcState) (id : Nat), 1 < s.counts id →
      (runOp s (RcOp.drop id)).counts id = s.counts id - 1 ∧
      (runOp s (RcOp.drop id)).releases = s.releases) ∧
    (∀ (s : RcState) (id : Nat), s.counts id = 1 →
      (runOp s (RcOp.drop id)).counts id = 0 ∧
      (runOp s (RcOp.drop id)).releases =
        s.releases ++ [(s.kindOf id, id)]) ∧
    (∀ ops : List RcOp, validTrace initState ops = true →
      ((runOps initState ops).releases.map Prod.snd).Nodup ∧
        ∀ p ∈ (runOps initState ops).releases,
          (runOps initState ops).counts p.2 = 0) := by
  refine ⟨?_, ?_, ?_, ?_, ?_⟩
  · intro ptr s
    refine ⟨?_, ?_, ?_, ?_, ?_, ?_⟩ <;>
      simp [make_plaidml_shape, make_plaidml_buffer, make_plaidml_view, runOp]
  · intro s id
    simp [runOp]
  · intro s id h
    have hne : s.counts id ≠ 1 := by omega
    exact ⟨by simp [runOp, hne], by simp [runOp, hne]⟩
  · intro s id h
    exact ⟨by simp [runOp, h], by simp [runOp, h]⟩
  · intro ops hv
    exact runOps_preserves ops initState hv (by simp [initState])
      (by simp [initState])

/-- Witness for C7: creating a buffer handle 5, copying it, and dropping
both copies releases pointer 5 exactly once (a duplicate-free log) with
no live owner left; the drop with two owners releases nothing and the
final drop appends the buffer free call. -/
theorem C7_refcount_witness :
    (((runOps initState [RcOp.newh HKind.buffer 5, RcOp.copy 5,
        RcOp.drop 5, RcOp.drop 5]).releases.map Prod.snd).Nodup ∧
      (runOps initState [RcOp.newh HKind.buffer 5, RcOp.copy 5,
        RcOp.drop 5, RcOp.drop 5]).counts 5 = 0) ∧
    (runOp (runOp (make_plaidml_buffer 5 initState) (RcOp.copy 5))
        (RcOp.drop 5)).releases =
      (runOp (make_plaidml_buffer 5 initState) (RcOp.copy 5)).releases ∧
    (runOp (make_plaidml_buffer 5 initState) (RcOp.drop 5)).releases =
      (make_plaidml_buffer 5 initState).releases ++ [(HKind.buffer, 5)] :=
  ⟨⟨(C7_refcount.2.2.2.2 [RcOp.newh HKind.buffer 5, RcOp.copy 5,
      RcOp.drop 5, RcOp.drop 5] (by decide)).1,
    (C7_refcount.2.2.2.2 [RcOp.newh HKind.buffer 5, RcOp.copy 5,
      RcOp.drop 5, RcOp.drop 5] (by decide)).2 (HKind.buffer, 5)
      (by decide)⟩,
   (C7_refcount.2.2.1 (runOp (make_plaidml_buffer 5 initState)
      (RcOp.copy 5)) 5 (by decide)).2,
   (C7_refcount.2.2.2.1 (make_plaidml_buffer 5 initState) 5 (by decide)).2⟩

/-- Counterexample for claim C1 as stated: in the concrete scenario — a
shape (pointer 0), a buffer allocated from it (pointer 1), a view mapped
from the buffer (pointer 2), then the `Buffer` value dropped — the
buffer handle's release function is invoked while the view is still
alive: a `View` stores only its own view handle (core.h:168), not a
reference to the parent buffer's handle. -/
theorem C1_view_counterexample :
    (HKind.buffer, 1) ∈ c1Final.releases ∧
    c1Final.counts c1Mapped.1.ptr_ = 1 := by
  decide

/-- Wrapping a fresh pointer does not change another pointer's count. -/
theorem runOp_newh_counts_ne (s : RcState) (k : HKind) (id j : Nat)
    (h : j ≠ id) : (runOp s (RcOp.newh k id)).counts j = s.counts j := by
  simp [runOp, h]

/-- Wrapping a fresh pointer does not change another pointer's bound
release function. -/
theorem runOp_newh_kind_ne (s : RcState) (k : HKind) (id j : Nat)
    (h : j ≠ id) : (runOp s (RcOp.newh k id)).kindOf j = s.kindOf j := by
  simp [runOp, h]

/-- Wrapping a pointer gives it exactly one owner. -/
theorem runOp_newh_counts_self (s : RcState) (k : HKind) (id : Nat) :
    (runOp s (RcOp.newh k id)).counts id = 1 := by
  simp [runOp]

/-- Dropping one pointer does not change another pointer's count. -/
theorem runOp_drop_counts_ne (s : RcState) (id j : Nat) (h : j ≠ id) :
    (runOp s (RcOp.drop id)).counts j = s.counts j := by
  by_cases h1 : s.counts id = 1 <;> simp [runOp, h1, h]

/-- Dropping a pointer never changes the bound release functions. -/
theorem runOp_drop_kind (s : RcState) (id j : Nat) :
    (runOp s (RcOp.drop id)).kindOf j = s.kindOf j := by
  by_cases h1 : s.counts id = 1 <;> simp [runOp, h1]

/-- Dropping a pointer whose count is 1 invokes its bound release
function: the release log grows by exactly that entry. -/
theorem runOp_drop_releases_one (s : RcState) (id : Nat)
    (h : s.counts id = 1) :
    (runOp s (RcOp.drop id)).releases = s.releases ++ [(s.kindOf id, id)] := by
  simp [runOp, h]

/-- Claim C1 (amended): a `View` constructed by a buffer's map operation
holds a strong reference only to its own view handle; mapping leaves the
buffer handle's reference count unchanged, so when the `Buffer` value is
the buffer handle's last owner and is dropped before the view is
released, the buffer's release function is invoked while the view is
still alive. -/
theorem C1_view_amended (s : RcState) (b : RcBuffer) (rv : Nat)
    (hb : s.counts b.ptr_ = 1) (hk : s.kindOf b.ptr_ = HKind.buffer)
    (h1 : rv ≠ b.ptr_) (h2 : b.shape_ptr ≠ b.ptr_) (h3 : rv ≠ b.shape_ptr) :
    ((b.mmap_current rv s).2.counts b.ptr_ = s.counts b.ptr_) ∧
    (HKind.buffer, b.ptr_) ∈
      (RcBuffer.dropValue b (b.mmap_current rv s).2).releases ∧
    0 < (RcBuffer.dropValue b (b.mmap_current rv s).2).counts
      (b.mmap_current rv s).1.ptr_ := by
  have h1s : b.ptr_ ≠ rv := fun h => h1 h.symm
  have h2s : b.ptr_ ≠ b.shape_ptr := fun h => h2 h.symm
  have hA : (b.mmap_current rv s).2 = runOp s (RcOp.newh HKind.view rv) :=
    rfl
  have hAc : (b.mmap_current rv s).2.counts b.ptr_ = s.counts b.ptr_ := by
    rw [hA]
    exact runOp_newh_counts_ne s HKind.view rv b.ptr_ h1s
  have hAcv : (b.mmap_current rv s).2.counts rv = 1 := by
    rw [hA]
    exact runOp_newh_counts_self s HKind.view rv
  have hAk : (b.mmap_current rv s).2.kindOf b.ptr_ = HKind.buffer := by
    rw [hA, runOp_newh_kind_ne s HKind.view rv b.ptr_ h1s]
    exact hk
  have hD : RcBuffer.dropValue b (b.mmap_current rv s).2 =
      runOp (runOp (b.mmap_current rv s).2 (RcOp.drop b.shape_ptr))
        (RcOp.drop b.ptr_) := rfl
  have hBc : (runOp (b.mmap_current rv s).2
      (RcOp.drop b.shape_ptr)).counts b.ptr_ = 1 := by
    rw [runOp_drop_counts_ne _ _ _ h2s, hAc]
    exact hb
  have hBcv : (runOp (b.mmap_current rv s).2
      (RcOp.drop b.shape_ptr)).counts rv = 1 := by
    rw [runOp_drop_counts_ne _ _ _ h3]
    exact hAcv
  have hBk : (runOp (b.mmap_current rv s).2
      (RcOp.drop b.shape_ptr)).kindOf b.ptr_ = HKind.buffer := by
    rw [runOp_drop_kind]
    exact hAk
  refine ⟨hAc, ?_, ?_⟩
  · rw [hD]
    rw [runOp_drop_releases_one _ _ hBc, hBk]
    simp
  · have hvp : (b.mmap_current rv s).1.ptr_ = rv := rfl
    rw [hD, hvp, runOp_drop_counts_ne _ _ _ h1, hBcv]
    exact Nat.one_pos

/-- Witness for the amended C1: in the concrete scenario the mapping
leaves the buffer handle's count at 1, the drop of the buffer value
releases buffer pointer 1 while view pointer 2 stays alive. -/
theorem C1_view_amended_witness :
    (c1Mapped.2.counts c1Setup.1.ptr_ =
      c1Setup.2.counts c1Setup.1.ptr_) ∧
    (HKind.buffer, c1Setup.1.ptr_) ∈
      (RcBuffer.dropValue c1Setup.1 c1Mapped.2).releases ∧
    0 < (RcBuffer.dropValue c1Setup.1 c1Mapped.2).counts
      c1Mapped.1.ptr_ :=
  C1_view_amended c1Setup.2 c1Setup.1 2 (by decide) (by decide) (by decide)
    (by decide) (by decide)

end Plaidml
